import Mathlib

/-
  Verification of the wildfire-risk adjustment heuristic in src/app.py.

  The three core functions of the program are embedded over exact rationals:
  - calculate_cumulative_rainfall_factor (app.py lines 10-39): a soil-moisture
    estimate that takes the maximum of a recent-history table value and an
    immediate-rainfall step value. The dictionary lookup raises KeyError for
    a level outside 0..5, modelled here as Option.none.
  - apply_smart_rainfall_adjustment (app.py lines 41-48): adjusted risk is
    base_risk * (1 - moisture_factor * 0.85); it takes no humidity input.
  - get_risk_level (app.py lines 50-63): the ordered threshold table mapping
    a risk value to a label and a color.

  Spec-side definitions (the complement-multiply policy of section 4.1 of the
  spec, and the step/table named by the claims) are defined separately and
  compared against the code embedding.
-/

namespace Cal

/-- Embeds the base_moisture dictionary of app.py lines 16-23. A key outside
0..5 raises KeyError in Python, modelled as none. -/
def base_moisture (level : ℤ) : Option ℚ :=
  if level = 0 then some 0
  else if level = 1 then some (1/10)
  else if level = 2 then some (3/10)
  else if level = 3 then some (5/10)
  else if level = 4 then some (7/10)
  else if level = 5 then some (9/10)
  else none

/-- Embeds the current_effect if-elif chain of app.py lines 26-34. -/
def current_effect (current_rainfall : ℚ) : ℚ :=
  if current_rainfall ≥ 10 then 9/10
  else if current_rainfall ≥ 5 then 7/10
  else if current_rainfall ≥ 1 then 4/10
  else if current_rainfall > 0 then 2/10
  else 0

/-- Embeds calculate_cumulative_rainfall_factor of app.py lines 10-39:
max of the table value and the immediate-rainfall effect; none when the
table lookup fails. -/
def calculate_cumulative_rainfall_factor (recent_rain_level : ℤ)
    (current_rainfall : ℚ) : Option ℚ :=
  (base_moisture recent_rain_level).map
    (fun bm => max bm (current_effect current_rainfall))

/-- Embeds apply_smart_rainfall_adjustment of app.py lines 41-48:
returns (base_risk * (1 - moisture_factor * 0.85), moisture_factor).
Note the function has no humidity parameter in the source. -/
def apply_smart_rainfall_adjustment (base_risk rainfall_mm : ℚ)
    (recent_rain_level : ℤ) : Option (ℚ × ℚ) :=
  (calculate_cumulative_rainfall_factor recent_rain_level rainfall_mm).map
    (fun m => (base_risk * (1 - m * (85/100)), m))

/-- Embeds get_risk_level of app.py lines 50-63. -/
def get_risk_level (risk : ℚ) : String × String :=
  if risk ≥ 80 then ("🚨 극도로 높음", "darkred")
  else if risk ≥ 65 then ("🔥 매우 높음", "red")
  else if risk ≥ 45 then ("⚠️ 높음", "orange")
  else if risk ≥ 25 then ("🔶 보통", "gold")
  else if risk ≥ 10 then ("💚 낮음", "green")
  else ("✅ 매우 낮음", "blue")

/-- The prediction handler of app.py lines 119-126 calls the adjustment with
(base_risk, rainfall, recent_rain_level) only; the humidity read at line 83
is in scope there but is not passed to the adjustment. This definition is the
handler view of the adjusted risk as a function of all four quantities. -/
def handler_adjusted_risk (base_risk rainfall_mm : ℚ) (recent_rain_level : ℤ)
    (humidity : ℚ) : Option ℚ :=
  (apply_smart_rainfall_adjustment base_risk rainfall_mm recent_rain_level).map
    Prod.fst

/-- The recent-history table as the claims name it (identical values to the
base_moisture dictionary, stated as a total function on 0..5). -/
def recent_history_table (level : ℤ) : ℚ :=
  if level = 0 then 0
  else if level = 1 then 1/10
  else if level = 2 then 3/10
  else if level = 3 then 5/10
  else if level = 4 then 7/10
  else 9/10

/-- The immediate-rainfall step as the claims name it. -/
def immediate_rainfall_step (rainfall : ℚ) : ℚ :=
  if rainfall ≥ 10 then 9/10
  else if rainfall ≥ 5 then 7/10
  else if rainfall ≥ 1 then 4/10
  else if rainfall > 0 then 2/10
  else 0

/-- Modelled from the spec, section 4.1: the optional humidity factor
max(0, (humidity - 60) / 40) * 0.2 of the complement-multiply policy. -/
def spec_humidity_factor (humidity : ℚ) : ℚ :=
  max 0 ((humidity - 60) / 40) * (2/10)

/-- Modelled from the spec, section 4.1: soil_factor = soil_moisture * 0.7. -/
def spec_soil_factor (soil_moisture : ℚ) : ℚ :=
  soil_moisture * (7/10)

/-- Modelled from the spec, section 4.1: the complement-multiply total
reduction 1 - (1 - soil_factor) * (1 - humidity_factor). -/
def spec_total_reduction (soil_moisture humidity : ℚ) : ℚ :=
  1 - (1 - spec_soil_factor soil_moisture) * (1 - spec_humidity_factor humidity)

/-- Modelled from the spec, section 4.1: adjusted_risk under the
complement-multiply policy. -/
def spec_adjusted_risk (base_risk soil_moisture humidity : ℚ) : ℚ :=
  base_risk * (1 - spec_total_reduction soil_moisture humidity)

/- Helper lemmas shared by the claim theorems. -/

lemma base_moisture_eq (l : ℤ) (h0 : 0 ≤ l) (h5 : l ≤ 5) :
    base_moisture l = some (recent_history_table l) := by
  interval_cases l <;> rfl

lemma current_effect_eq_step (r : ℚ) :
    current_effect r = immediate_rainfall_step r := rfl

lemma calc_factor_eq (l : ℤ) (h0 : 0 ≤ l) (h5 : l ≤ 5) (r : ℚ) :
    calculate_cumulative_rainfall_factor l r =
      some (max (recent_history_table l) (current_effect r)) := by
  rw [calculate_cumulative_rainfall_factor, base_moisture_eq l h0 h5,
    Option.map_some']

lemma calc_factor_none (l : ℤ) (h : l < 0 ∨ 5 < l) (r : ℚ) :
    calculate_cumulative_rainfall_factor l r = none := by
  have hb : base_moisture l = none := by
    unfold base_moisture
    rcases h with h | h <;> split_ifs <;> first | rfl | omega
  rw [calculate_cumulative_rainfall_factor, hb, Option.map_none']

lemma current_effect_nonneg (r : ℚ) : 0 ≤ current_effect r := by
  unfold current_effect
  split_ifs <;> norm_num

lemma current_effect_le (r : ℚ) : current_effect r ≤ 9/10 := by
  unfold current_effect
  split_ifs <;> norm_num

lemma current_effect_mono {r1 r2 : ℚ} (h : r1 ≤ r2) :
    current_effect r1 ≤ current_effect r2 := by
  unfold current_effect
  split_ifs <;> linarith

lemma table_nonneg (l : ℤ) : 0 ≤ recent_history_table l := by
  unfold recent_history_table
  split_ifs <;> norm_num

lemma table_le (l : ℤ) : recent_history_table l ≤ 9/10 := by
  unfold recent_history_table
  split_ifs <;> norm_num

lemma table_mono {l1 l2 : ℤ} (h0 : 0 ≤ l1) (h : l1 ≤ l2) (h5 : l2 ≤ 5) :
    recent_history_table l1 ≤ recent_history_table l2 := by
  have h1 : l1 ≤ 5 := le_trans h h5
  have h2 : 0 ≤ l2 := le_trans h0 h
  interval_cases l1 <;> interval_cases l2 <;> norm_num [recent_history_table]

lemma factor_bounds (l : ℤ) (r : ℚ) :
    0 ≤ max (recent_history_table l) (current_effect r) ∧
      max (recent_history_table l) (current_effect r) ≤ 9/10 :=
  ⟨le_trans (table_nonneg l) (le_max_left _ _),
   max_le (table_le l) (current_effect_le r)⟩

lemma adjusted_mono {b m1 m2 : ℚ} (hb : 0 ≤ b) (hm : m1 ≤ m2) :
    b * (1 - m2 * (85/100)) ≤ b * (1 - m1 * (85/100)) := by
  have h : 1 - m2 * (85/100) ≤ 1 - m1 * (85/100) := by linarith
  exact mul_le_mul_of_nonneg_left h hb

/-- C1: for every base_risk in [0,100], every current_rainfall ≥ 0 and every
recent_level in 0..5, the adjusted risk satisfies
0 ≤ adjusted_risk ≤ base_risk ≤ 100. -/
theorem C1_adjusted_risk_bounded (b r : ℚ) (l : ℤ)
    (hb0 : 0 ≤ b) (hb1 : b ≤ 100) (hr : 0 ≤ r) (hl0 : 0 ≤ l) (hl5 : l ≤ 5)
    (a m : ℚ)
    (h : apply_smart_rainfall_adjustment b r l = some (a, m)) :
    0 ≤ a ∧ a ≤ b ∧ b ≤ 100 := by
  rw [apply_smart_rainfall_adjustment, calc_factor_eq l hl0 hl5 r,
    Option.map_some', Option.some.injEq, Prod.mk.injEq] at h
  obtain ⟨ha, hm⟩ := h
  obtain ⟨hM0, hM9⟩ := factor_bounds l r
  subst ha
  refine ⟨mul_nonneg hb0 (by linarith), ?_, hb1⟩
  calc b * (1 - max (recent_history_table l) (current_effect r) * (85/100)) ≤
      b * 1 := mul_le_mul_of_nonneg_left (by linarith) hb0
    _ = b := mul_one b

/-- Witness for C1 at base 50, rainfall 3, level 2 (adjusted risk 33). -/
theorem C1_witness : 0 ≤ (33:ℚ) ∧ (33:ℚ) ≤ 50 ∧ (50:ℚ) ≤ 100 :=
  C1_adjusted_risk_bounded 50 3 2 (by norm_num) (by norm_num) (by norm_num)
    (by norm_num) (by norm_num) 33 (2/5)
    (by norm_num [apply_smart_rainfall_adjustment,
      calculate_cumulative_rainfall_factor, base_moisture, current_effect,
      max_def])

/-- C3: get_risk_level is a total function on the rationals implementing the
ordered threshold table, boundary values belonging to the higher tier:
risk ≥ 80 gives the extreme tier colored darkred, 65 ≤ risk < 80 the
very-high tier colored red, 45 ≤ risk < 65 the high tier colored orange,
25 ≤ risk < 45 the moderate tier colored gold, 10 ≤ risk < 25 the low tier
colored green, and risk < 10 the very-low tier colored blue. -/
theorem C3_risk_level_table (r : ℚ) :
    (80 ≤ r → get_risk_level r = ("🚨 극도로 높음", "darkred")) ∧
    (65 ≤ r ∧ r < 80 → get_risk_level r = ("🔥 매우 높음", "red")) ∧
    (45 ≤ r ∧ r < 65 → get_risk_level r = ("⚠️ 높음", "orange")) ∧
    (25 ≤ r ∧ r < 45 → get_risk_level r = ("🔶 보통", "gold")) ∧
    (10 ≤ r ∧ r < 25 → get_risk_level r = ("💚 낮음", "green")) ∧
    (r < 10 → get_risk_level r = ("✅ 매우 낮음", "blue")) := by
  unfold get_risk_level
  split_ifs with h1 h2 h3 h4 h5 <;>
    refine ⟨?_, ?_, ?_, ?_, ?_, ?_⟩ <;> intro h <;>
    first
      | rfl
      | (exfalso; obtain ⟨ha, hb⟩ := h; linarith)
      | (exfalso; linarith)

/-- Witness for C3 at the 80 boundary: the higher (extreme/darkred) tier. -/
theorem C3_witness : get_risk_level 80 = ("🚨 극도로 높음", "darkred") :=
  (C3_risk_level_table 80).1 (by norm_num)

/-- C4: with base_risk ≥ 0 and recent_level fixed in 0..5, the adjusted risk
is monotonically non-increasing in current_rainfall. -/
theorem C4_monotone_in_rainfall (b r1 r2 : ℚ) (l : ℤ)
    (hb : 0 ≤ b) (hl0 : 0 ≤ l) (hl5 : l ≤ 5)
    (hr1 : 0 ≤ r1) (hr : r1 ≤ r2)
    (a1 m1 a2 m2 : ℚ)
    (h1 : apply_smart_rainfall_adjustment b r1 l = some (a1, m1))
    (h2 : apply_smart_rainfall_adjustment b r2 l = some (a2, m2)) :
    a2 ≤ a1 := by
  rw [apply_smart_rainfall_adjustment, calc_factor_eq l hl0 hl5 r1,
    Option.map_some', Option.some.injEq, Prod.mk.injEq] at h1
  rw [apply_smart_rainfall_adjustment, calc_factor_eq l hl0 hl5 r2,
    Option.map_some', Option.some.injEq, Prod.mk.injEq] at h2
  obtain ⟨ha1, hm1⟩ := h1
  obtain ⟨ha2, hm2⟩ := h2
  subst ha1
  subst ha2
  exact adjusted_mono hb (max_le_max (le_refl _) (current_effect_mono hr))

/-- Witness for C4 at base 50, level 0, rainfall 0 versus 10. -/
theorem C4_witness : (47/4 : ℚ) ≤ 50 :=
  C4_monotone_in_rainfall 50 0 10 0 (by norm_num) (by norm_num) (by norm_num)
    (by norm_num) (by norm_num) 50 0 (47/4) (9/10)
    (by norm_num [apply_smart_rainfall_adjustment,
      calculate_cumulative_rainfall_factor, base_moisture, current_effect,
      max_def])
    (by norm_num [apply_smart_rainfall_adjustment,
      calculate_cumulative_rainfall_factor, base_moisture, current_effect,
      max_def])

/-- C5: with base_risk ≥ 0 and current_rainfall fixed, the adjusted risk is
monotonically non-increasing in the recent-precipitation level over 0..5. -/
theorem C5_monotone_in_level (b r : ℚ) (l1 l2 : ℤ)
    (hb : 0 ≤ b) (hr : 0 ≤ r)
    (hl0 : 0 ≤ l1) (hl : l1 ≤ l2) (hl5 : l2 ≤ 5)
    (a1 m1 a2 m2 : ℚ)
    (h1 : apply_smart_rainfall_adjustment b r l1 = some (a1, m1))
    (h2 : apply_smart_rainfall_adjustment b r l2 = some (a2, m2)) :
    a2 ≤ a1 := by
  rw [apply_smart_rainfall_adjustment,
    calc_factor_eq l1 hl0 (le_trans hl hl5) r,
    Option.map_some', Option.some.injEq, Prod.mk.injEq] at h1
  rw [apply_smart_rainfall_adjustment,
    calc_factor_eq l2 (le_trans hl0 hl) hl5 r,
    Option.map_some', Option.some.injEq, Prod.mk.injEq] at h2
  obtain ⟨ha1, hm1⟩ := h1
  obtain ⟨ha2, hm2⟩ := h2
  subst ha1
  subst ha2
  exact adjusted_mono hb (max_le_max (table_mono hl0 hl hl5) (le_refl _))

/-- Witness for C5 at base 40, rainfall 0, level 0 versus 5. -/
theorem C5_witness : (47/5 : ℚ) ≤ 40 :=
  C5_monotone_in_level 40 0 0 5 (by norm_num) (by norm_num) (by norm_num)
    (by norm_num) (by norm_num) 40 0 (47/5) (9/10)
    (by norm_num [apply_smart_rainfall_adjustment,
      calculate_cumulative_rainfall_factor, base_moisture, current_effect,
      max_def])
    (by norm_num [apply_smart_rainfall_adjustment,
      calculate_cumulative_rainfall_factor, base_moisture, current_effect,
      max_def])

/-- C6: for every level in 0..5 and rainfall ≥ 0, the soil-moisture estimate
equals the maximum of the recent-history table value and the
immediate-rainfall step value. -/
theorem C6_factor_is_max_of_table_and_step (l : ℤ) (r : ℚ)
    (hl0 : 0 ≤ l) (hl5 : l ≤ 5) (hr : 0 ≤ r) :
    calculate_cumulative_rainfall_factor l r =
      some (max (recent_history_table l) (immediate_rainfall_step r)) := by
  rw [calc_factor_eq l hl0 hl5 r, current_effect_eq_step]

/-- Witness for C6 at level 3, rainfall 7. -/
theorem C6_witness : calculate_cumulative_rainfall_factor 3 7 =
    some (max (recent_history_table 3) (immediate_rainfall_step 7)) :=
  C6_factor_is_max_of_table_and_step 3 7 (by norm_num) (by norm_num)
    (by norm_num)

/-- C2 counterexample: the code adjustment is independent of humidity
(changing humidity from 60 to 90 leaves the adjusted risk unchanged) and
its result differs from the complement-multiply formula of the spec at
base 80, rainfall 0, level 5, humidity 50 (code gives 18.8, the spec
formula gives 29.6). -/
theorem C2_counterexample :
    handler_adjusted_risk 80 0 5 90 = handler_adjusted_risk 80 0 5 60 ∧
    handler_adjusted_risk 80 0 5 50 ≠ some (spec_adjusted_risk 80 (9/10) 50) := by
  refine ⟨rfl, ?_⟩
  norm_num [handler_adjusted_risk, apply_smart_rainfall_adjustment,
    calculate_cumulative_rainfall_factor, base_moisture, current_effect,
    spec_adjusted_risk, spec_total_reduction, spec_soil_factor,
    spec_humidity_factor, max_def]

/-- C2 amended: the risk-adjustment call made by the prediction handler takes
no humidity input, so the adjusted risk is independent of humidity, and it
computes base_risk * (1 - moisture_factor * 0.85) with moisture_factor the
max of the recent-history table value and the immediate-rainfall effect,
rather than the complement-multiply formula. -/
theorem C2_amended_no_humidity_effect (b r hum1 hum2 : ℚ) (l : ℤ)
    (hl0 : 0 ≤ l) (hl5 : l ≤ 5) :
    handler_adjusted_risk b r l hum1 = handler_adjusted_risk b r l hum2 ∧
    handler_adjusted_risk b r l hum1 =
      some (b * (1 - max (recent_history_table l) (current_effect r) *
        (85/100))) := by
  refine ⟨rfl, ?_⟩
  rw [handler_adjusted_risk, apply_smart_rainfall_adjustment,
    calc_factor_eq l hl0 hl5 r, Option.map_some', Option.map_some']

/-- Witness for the amended C2 at base 80, rainfall 0, level 5,
humidity 90 versus 60. -/
theorem C2_amended_witness :
    handler_adjusted_risk 80 0 5 90 = handler_adjusted_risk 80 0 5 60 ∧
    handler_adjusted_risk 80 0 5 90 =
      some (80 * (1 - max (recent_history_table 5) (current_effect 0) *
        (85/100))) :=
  C2_amended_no_humidity_effect 80 0 90 60 5 (by norm_num) (by norm_num)

/-- C7 counterexample: negative rainfall does not fail. At rainfall -1 and
level 2 the evaluation succeeds and returns the normal output
(adjusted risk 59.6 from base 80, moisture factor 0.3): the current-effect
step treats non-positive rainfall as zero effect. -/
theorem C7_counterexample :
    apply_smart_rainfall_adjustment 80 (-1) 2 = some (298/5, 3/10) := by
  norm_num [apply_smart_rainfall_adjustment,
    calculate_cumulative_rainfall_factor, base_moisture, current_effect,
    max_def]

/-- C7 amended: a recent_level outside 0..5 makes the evaluation fail with
no partial output (the table lookup fails and the error is caught at the
handler boundary), but a negative rainfall does not fail: for every
rainfall, including negative values, evaluation at a level in 0..5 returns
a result (negative rainfall is excluded only by the input widget's
minimum-value constraint). -/
theorem C7_amended_level_guard (b r : ℚ) (l : ℤ) :
    ((l < 0 ∨ 5 < l) → apply_smart_rainfall_adjustment b r l = none) ∧
    (0 ≤ l → l ≤ 5 →
      ∃ a m, apply_smart_rainfall_adjustment b r l = some (a, m)) := by
  constructor
  · intro h
    rw [apply_smart_rainfall_adjustment, calc_factor_none l h r,
      Option.map_none']
  · intro h0 h5
    exact ⟨_, _, by
      rw [apply_smart_rainfall_adjustment, calc_factor_eq l h0 h5 r,
        Option.map_some']⟩

/-- Witness for the amended C7: level 9 fails, and level 2 with rainfall -1
succeeds. -/
theorem C7_witness :
    apply_smart_rainfall_adjustment 80 (-1) 9 = none ∧
    ∃ a m, apply_smart_rainfall_adjustment 80 (-1) 2 = some (a, m) :=
  ⟨(C7_amended_level_guard 80 (-1) 9).1 (Or.inr (by norm_num)),
   (C7_amended_level_guard 80 (-1) 2).2 (by norm_num) (by norm_num)⟩

/-- C8 counterexample: at base 80, rainfall 0, level 0, humidity 50 the
adjusted risk is exactly 80, and the 80 boundary belongs to the higher
tier, so the resulting level is the extreme/darkred tier, not the
very-high/red tier the claim names. -/
theorem C8_counterexample :
    handler_adjusted_risk 80 0 0 50 = some 80 ∧
    get_risk_level 80 ≠ ("🔥 매우 높음", "red") := by
  constructor
  · norm_num [handler_adjusted_risk, apply_smart_rainfall_adjustment,
      calculate_cumulative_rainfall_factor, base_moisture, current_effect,
      max_def]
  · have h : get_risk_level 80 = ("🚨 극도로 높음", "darkred") := by
      rw [get_risk_level]
      norm_num
    rw [h]
    intro hcontra
    exact absurd (congrArg Prod.snd hcontra) (by decide)

/-- C8 amended: at base 80, rainfall 0, level 0 (driest), humidity 50, the
moisture factor is 0 so the reduction is 0, the adjusted risk is exactly
80, and the resulting level is the extreme/darkred tier (80 is a boundary
and belongs to the higher tier). -/
theorem C8_amended_scenario :
    apply_smart_rainfall_adjustment 80 0 0 = some (80, 0) ∧
    get_risk_level 80 = ("🚨 극도로 높음", "darkred") := by
  constructor
  · norm_num [apply_smart_rainfall_adjustment,
      calculate_cumulative_rainfall_factor, base_moisture, current_effect,
      max_def]
  · rw [get_risk_level]
    norm_num

/-- C9: the adjustment is deterministic and stateless: two calls with
identical inputs return exactly the same (adjusted_risk, factor) pair. -/
theorem C9_deterministic (b1 r1 : ℚ) (l1 : ℤ) (b2 r2 : ℚ) (l2 : ℤ)
    (hb : b1 = b2) (hr : r1 = r2) (hl : l1 = l2) :
    apply_smart_rainfall_adjustment b1 r1 l1 =
      apply_smart_rainfall_adjustment b2 r2 l2 := by
  rw [hb, hr, hl]

/-- Witness for C9 at base 80, rainfall 0, level 5 called twice. -/
theorem C9_witness :
    apply_smart_rainfall_adjustment 80 0 5 =
      apply_smart_rainfall_adjustment 80 0 5 :=
  C9_deterministic 80 0 5 80 0 5 rfl rfl rfl

/-- C10: the moisture factor never exceeds 0.9, the multiplier
1 - 0.85 * factor is at least 0.235, so the adjusted risk is at least
0.235 * base_risk; a strictly positive base risk is never reduced to
zero. -/
theorem C10_reduction_floor (b r : ℚ) (l : ℤ)
    (hb : 0 ≤ b) (hr : 0 ≤ r) (hl0 : 0 ≤ l) (hl5 : l ≤ 5)
    (a m : ℚ)
    (h : apply_smart_rainfall_adjustment b r l = some (a, m)) :
    m ≤ 9/10 ∧ (235/1000) * b ≤ a ∧ (0 < b → 0 < a) := by
  rw [apply_smart_rainfall_adjustment, calc_factor_eq l hl0 hl5 r,
    Option.map_some', Option.some.injEq, Prod.mk.injEq] at h
  obtain ⟨ha, hm⟩ := h
  obtain ⟨hM0, hM9⟩ := factor_bounds l r
  subst ha
  subst hm
  refine ⟨hM9, ?_, ?_⟩
  · calc (235/1000) * b = b * (235/1000) := mul_comm _ _
      _ ≤ b * (1 - max (recent_history_table l) (current_effect r) *
          (85/100)) := mul_le_mul_of_nonneg_left (by linarith) hb
  · intro hbpos
    exact mul_pos hbpos (by linarith)

/-- Witness for C10 at base 100, rainfall 20, level 5 (adjusted risk 23.5,
factor 0.9). -/
theorem C10_witness : (9/10 : ℚ) ≤ 9/10 ∧ (235/1000) * 100 ≤ (47/2 : ℚ) ∧
    (0 < (100:ℚ) → 0 < (47/2 : ℚ)) :=
  C10_reduction_floor 100 20 5 (by norm_num) (by norm_num) (by norm_num)
    (by norm_num) (47/2) (9/10)
    (by norm_num [apply_smart_rainfall_adjustment,
      calculate_cumulative_rainfall_factor, base_moisture, current_effect,
      max_def])

end Cal
